import Mathlib

/-!
Verification development for the Mastery Engine repository.

The repository's two pieces of logic with design substance are the Mermaid
diagram-text sanitizer (`sanitizeMermaid` in `src/components/Diagram.tsx`,
current revision at lines 84-138) and the retry/backoff wrapper (`withRetry`
in `src/services/geminiService.ts`, current revision at lines 7-27, older
revision at lines 154-170 and in `src/unnamed/part_007`/`part_009`).

This file gives a shallow embedding of those routines.  Strings are handled
as `List Char`; each JavaScript regular-expression `replace` pass is embedded
as a left-to-right scanner (`scanRep`) driven by a matcher that decides, at a
given start position, whether the regex matches there and what the callback
replacement is.  Every matcher below is a hand-compilation of the concrete
regex; the character classes involved are pairwise disjoint in all the
relevant places, so the greedy/lazy backtracking of the JS engine collapses
to the deterministic run-length computations used here (this is argued case
by case in the comments of each matcher).
-/

/-! ### JavaScript string primitives -/

/-- The single-quote character (code point 39). -/
def squote : Char := Char.ofNat 39

/-- Character class of the JS `\s` (whitespace) and of `String.prototype.trim`:
space, tab, CR, LF, vertical tab, form feed and no-break space. -/
def isJsWs (c : Char) : Bool :=
  c.isWhitespace || c == Char.ofNat 11 || c == Char.ofNat 12 || c == Char.ofNat 160

/-- JS `String.prototype.trim`: strip `isJsWs` characters from both ends. -/
def jsTrim (cs : List Char) : List Char :=
  ((cs.dropWhile isJsWs).reverse.dropWhile isJsWs).reverse

/-- Generic engine for a global JS `replace`: walk the string left to right;
at each position, if the matcher reports a match of length `n` with a given
replacement, emit the replacement and resume scanning after the match
(JS `lastIndex` semantics, no rescanning of replacements); otherwise emit the
current character and advance by one. -/
def scanRepAux (f : List Char → Option (Nat × List Char)) :
    Nat → List Char → List Char
  | _, [] => []
  | 0, cs => cs
  | fuel + 1, c :: cs =>
    match f (c :: cs) with
    | some (n, rep) => rep ++ scanRepAux f fuel (cs.drop (n - 1))
    | none => c :: scanRepAux f fuel cs

/-- Entry point of the scanner: every step consumes at least one character,
so a fuel equal to the input length always suffices (the fuel-exhausted
branch of `scanRepAux` is unreachable). -/
def scanRep (f : List Char → Option (Nat × List Char)) (cs : List Char) : List Char :=
  scanRepAux f cs.length cs

/-- Matcher for a literal-pattern `replace` (used for the `&lt;`/`&gt;`
entity fixes). -/
def matchLit (pat rep : List Char) (cs : List Char) : Option (Nat × List Char) :=
  if pat.isPrefixOf cs then some (pat.length, rep) else none

/-! ### Phase 1 of `sanitizeMermaid` (Diagram.tsx lines 86-92)

The global arrow-repair regexes.  For the pattern `-{1,}\s*-->` a match starting at a
given position consists of `d ≥ 1` dashes, `w ≥ 0` whitespace characters and
the literal `-->`.  Writing `a` for the maximal dash run and `b` for the
maximal whitespace run that follows it, the only possible matches are
`d = a, w = b` followed by the literal `-->` (when the literal is present
after the runs), or — when `b = 0` and the run is followed directly by `>` —
`d = a - 2, w = 0` with the literal consuming the last two dashes and the
`>` (which needs `a ≥ 3`).  The same analysis applies to `/={1,}\s*==>/`. -/

/-- Matcher for the global replace of pattern `-{1,}\s*-->` by ` --> ` at a
position. -/
def matchDashArrow (cs : List Char) : Option (Nat × List Char) :=
  let a := (cs.takeWhile (fun c => c == '-')).length
  if a == 0 then none
  else
    let r1 := cs.drop a
    let b := (r1.takeWhile isJsWs).length
    let r2 := r1.drop b
    if (("-->").data).isPrefixOf r2 then some (a + b + 3, (" --> ").data)
    else if b == 0 && decide (3 ≤ a) && (r1.headD ' ' == '>') then
      some (a + 1, (" --> ").data)
    else none

/-- Matcher for `raw.replace(/={1,}\s*==>/g, ' ==> ')` at a position. -/
def matchEqArrow (cs : List Char) : Option (Nat × List Char) :=
  let a := (cs.takeWhile (fun c => c == '=')).length
  if a == 0 then none
  else
    let r1 := cs.drop a
    let b := (r1.takeWhile isJsWs).length
    let r2 := r1.drop b
    if (("==>").data).isPrefixOf r2 then some (a + b + 3, (" ==> ").data)
    else if b == 0 && decide (3 ≤ a) && (r1.headD ' ' == '>') then
      some (a + 1, (" ==> ").data)
    else none

/-- Matcher for the global replace of pattern `-\.\s*->` by ` -.-> ` at a
position: the
literal `-.`, a greedy whitespace run, then the literal `->` (after the
maximal whitespace run the next character is non-whitespace, so no
backtracking case arises). -/
def matchDotArrow (cs : List Char) : Option (Nat × List Char) :=
  match cs with
  | '-' :: '.' :: rest =>
    let b := (rest.takeWhile isJsWs).length
    let r2 := rest.drop b
    if (("->").data).isPrefixOf r2 then some (4 + b, (" -.-> ").data) else none
  | _ => none

/-- Phase 1 of `sanitizeMermaid` (Diagram.tsx lines 86-92): the entity
fixes, the three global arrow repairs, then `trim()`. -/
def phase1 (raw : List Char) : List Char :=
  jsTrim (scanRep matchDotArrow
    (scanRep matchEqArrow
      (scanRep matchDashArrow
        (scanRep (matchLit (("&gt;").data) ((">").data))
          (scanRep (matchLit (("&lt;").data) (("<").data)) raw)))))

/-! ### Header detection (Diagram.tsx lines 96-99) -/

/-- The diagram-type keywords of the header regex
`/^(graph|flowchart|sequenceDiagram|classDiagram|stateDiagram|erDiagram|gantt|pie|gitGraph)/i`,
pre-lowered for the case-insensitive comparison. -/
def headerKeywords : List (List Char) :=
  [("graph").data, ("flowchart").data, ("sequencediagram").data,
   ("classdiagram").data, ("statediagram").data, ("erdiagram").data,
   ("gantt").data, ("pie").data, ("gitgraph").data]

/-- Case-insensitive test that a line starts with one of the diagram-type
keywords (the `^`-anchored `.match` of the header regex). -/
def startsWithKeywordCI (cs : List Char) : Bool :=
  headerKeywords.any (fun k => k.isPrefixOf (cs.map Char.toLower))

/-- JS `split('\n')`: always returns at least one (possibly empty) line. -/
def splitLines : List Char → List (List Char)
  | [] => [[]]
  | c :: rest =>
    if c = '\n' then [] :: splitLines rest
    else
      match splitLines rest with
      | [] => [[c]]
      | l :: ls => (c :: l) :: ls

/-- JS `join('\n')`. -/
def joinLines : List (List Char) → List Char
  | [] => []
  | [l] => l
  | l :: ls => l ++ '\n' :: joinLines ls

/-- Diagram.tsx lines 96-99: if the first line does not start with a
diagram-type keyword, `lines.unshift('flowchart TD')`. -/
def headeredLinesV1 (ls : List (List Char)) : List (List Char) :=
  match ls with
  | [] => []
  | l0 :: tl =>
    if startsWithKeywordCI l0 then l0 :: tl
    else (("flowchart TD").data) :: l0 :: tl

/-! ### Per-line node fix of the current revision (Diagram.tsx lines 108-122)

The regex is
`/([a-zA-Z0-9_.\-]+)\s*([\[\(\{]{1,2})(.*?)([\]\)\}]{1,2})([a-zA-Z0-9_.\-]*)/g`.
The identifier class, the whitespace class and the bracket classes are
pairwise disjoint, so group 1 is the maximal identifier run and the `\s*`
the maximal whitespace run after it.  The `{1,2}` open quantifier is greedy;
backtracking it to one bracket can never rescue a failed match, because a
match fails only when no close bracket occurs in the remainder, and giving
one open bracket back cannot produce a close bracket.  The lazy `(.*?)`
stops at the first close-class character, the greedy close quantifier then
takes a second close bracket when available, and the trailing suffix group
always succeeds as the maximal identifier run. -/

/-- Identifier class `[a-zA-Z0-9_.\-]` of the current revision. -/
def isIdCharV1 (c : Char) : Bool :=
  c.isAlpha || c.isDigit || c == '_' || c == '.' || c == '-'

/-- Open-bracket class `[\[\(\{]`. -/
def isOpenB (c : Char) : Bool := c == '[' || c == '(' || c == Char.ofNat 123

/-- Close-bracket class `[\]\)\}]`. -/
def isCloseB (c : Char) : Bool := c == ']' || c == ')' || c == Char.ofNat 125

/-- Callback step `id.trim().replace(/[^a-zA-Z0-9]/g, '_')`. -/
def cleanIdV1 (id : List Char) : List Char :=
  (jsTrim id).map (fun c => if c.isAlpha || c.isDigit then c else '_')

/-- Callback step `.replace(/[\"\'\|]/g, ' ').replace(/[\[\]\(\)]/g, ' ').trim()`
applied to label text. -/
def stripBreakingV1 (l : List Char) : List Char :=
  jsTrim ((l.map (fun c => if c == '"' || c == squote || c == '|' then ' ' else c)).map
    (fun c => if c == '[' || c == ']' || c == '(' || c == ')' then ' ' else c))

/-- The label normalisation of the node callback (Diagram.tsx lines 110-119):
wrap in double quotes, cleaning breaking characters; when the trimmed label
already starts and ends with a double quote, clean only the inside. -/
def processedLabelV1 (lab : List Char) : List Char :=
  let pl := jsTrim lab
  if pl.head? == some '"' && pl.getLast? == some '"' then
    '"' :: stripBreakingV1 ((pl.drop 1).dropLast) ++ ['"']
  else
    '"' :: stripBreakingV1 pl ++ ['"']

/-- Matcher for the node-pattern `replace` of Diagram.tsx lines 108-122,
including its callback (the `accidentalSuffix` group is matched and
dropped from the output). -/
def matchNodeV1 (cs : List Char) : Option (Nat × List Char) :=
  let ids := cs.takeWhile isIdCharV1
  if ids.isEmpty then none
  else
    let r1 := cs.drop ids.length
    let ws := r1.takeWhile isJsWs
    let r2 := r1.drop ws.length
    match r2 with
    | [] => none
    | c1 :: rest2 =>
      if isOpenB c1 then
        let opL : Nat :=
          match rest2 with
          | c2 :: _ => if isOpenB c2 then 2 else 1
          | [] => 1
        let ops := r2.take opL
        let r3 := r2.drop opL
        let lab := r3.takeWhile (fun c => !isCloseB c)
        let r4 := r3.drop lab.length
        match r4 with
        | [] => none
        | _ :: rest4 =>
          let clL : Nat :=
            match rest4 with
            | c3 :: _ => if isCloseB c3 then 2 else 1
            | [] => 1
          let cls := r4.take clL
          let r5 := r4.drop clL
          let suf := r5.takeWhile isIdCharV1
          some (ids.length + ws.length + opL + lab.length + clL + suf.length,
            cleanIdV1 ids ++ ops ++ processedLabelV1 lab ++ cls)
      else none

/-- Matcher for the unlinked-arrow repair
`l.replace(/([a-zA-Z0-9_.\-]+)\s*>\s*([a-zA-Z0-9_.\-]+)/g, '$1 --> $2')`
(Diagram.tsx line 125).  Identifier, whitespace and `>` classes are
disjoint, so both identifier groups are maximal runs.  Note that `-` is in
the identifier class, so the `--` of a well-formed `-->` arrow matches
group 1. -/
def matchGtArrow (cs : List Char) : Option (Nat × List Char) :=
  let i1 := cs.takeWhile isIdCharV1
  if i1.isEmpty then none
  else
    let r1 := cs.drop i1.length
    let w1 := (r1.takeWhile isJsWs).length
    let r2 := r1.drop w1
    match r2 with
    | '>' :: r3 =>
      let w2 := (r3.takeWhile isJsWs).length
      let r4 := r3.drop w2
      let i2 := r4.takeWhile isIdCharV1
      if i2.isEmpty then none
      else
        some (i1.length + w1 + 1 + w2 + i2.length,
          i1 ++ (" --> ").data ++ i2)
    | _ => none

/-- Matcher for the edge-label quoting pass
`l.replace(/(-->|==>|-\.>|-\|)\|([^|]+)\|/g, cb)` (Diagram.tsx lines
128-132).  The four arrow alternatives are pairwise non-overlapping as
prefixes, so at most one applies at a position. -/
def matchEdgeLabelV1 (cs : List Char) : Option (Nat × List Char) :=
  let arrOpt : Option (List Char) :=
    if (("-->").data).isPrefixOf cs then some (("-->").data)
    else if (("==>").data).isPrefixOf cs then some (("==>").data)
    else if (("-.>").data).isPrefixOf cs then some (("-.>").data)
    else if (("-|").data).isPrefixOf cs then some (("-|").data)
    else none
  match arrOpt with
  | none => none
  | some arr =>
    match cs.drop arr.length with
    | '|' :: r2 =>
      let lab := r2.takeWhile (fun c => c != '|')
      if lab.isEmpty then none
      else
        match r2.drop lab.length with
        | '|' :: _ =>
          let t := jsTrim lab
          if t.head? == some '"' && t.getLast? == some '"' then
            some (arr.length + 1 + lab.length + 1, arr ++ '|' :: lab ++ ['|'])
          else
            let cl := jsTrim (lab.map (fun c =>
              if c == '"' || c == squote || c == '|' || c == '[' || c == ']' ||
                 c == '(' || c == ')' then ' ' else c))
            some (arr.length + 1 + lab.length + 1,
              arr ++ '|' :: '"' :: cl ++ ['"', '|'])
        | _ => none
    | _ => none

/-- The per-line fixing stage of the current revision (Diagram.tsx lines
102-135): trim; pass empty lines and `%%` comment lines through; otherwise
apply the node fix, the unlinked-arrow fix and the edge-label fix in
order. -/
def perLineFixV1 (line : List Char) : List Char :=
  if (jsTrim line).isEmpty || (("%%").data).isPrefixOf (jsTrim line) then jsTrim line
  else scanRep matchEdgeLabelV1 (scanRep matchGtArrow (scanRep matchNodeV1 (jsTrim line)))

/-- The line list produced by `sanitizeMermaid` before the final join
(Diagram.tsx lines 94-135). -/
def sanitizeLines (raw : List Char) : List (List Char) :=
  (headeredLinesV1 (splitLines (phase1 raw))).map perLineFixV1

/-- The `sanitizeMermaid` of the current revision of `src/components/Diagram.tsx`
(lines 84-138), on character lists. -/
def sanitizeMermaid (raw : List Char) : List Char :=
  joinLines (sanitizeLines raw)

/-- String-level wrapper for `sanitizeMermaid`. -/
def sanitizeMermaidStr (s : String) : String :=
  ⟨sanitizeMermaid s.data⟩

/-! ### The node pass of the `src/unnamed/part_002` revision (lines 48-59) -/

/-- Identifier class `[a-zA-Z0-9_\-]` of the part_002 revision (no dot). -/
def isIdChar002 (c : Char) : Bool :=
  c.isAlpha || c.isDigit || c == '_' || c == '-'

/-- The label step of the part_002 node callback: trim; when the trimmed
label is non-empty and does not already start with a double quote, convert
internal double quotes to single quotes and wrap in double quotes. -/
def labelled002 (lab : List Char) : List Char :=
  let cleanLabel := jsTrim lab
  if !cleanLabel.isEmpty && !(cleanLabel.head? == some '"') then
    '"' :: cleanLabel.map (fun c => if c == '"' then squote else c) ++ ['"']
  else cleanLabel

/-- Matcher for the part_002 node regex
`/([a-zA-Z0-9_\-]+)\s*([\[\(\{]{1,2})(.*?)([\]\)\}]{1,2})/g` with its
callback (same deterministic reading as `matchNodeV1`; no suffix group,
identifier not rewritten). -/
def matchNode002 (cs : List Char) : Option (Nat × List Char) :=
  let ids := cs.takeWhile isIdChar002
  if ids.isEmpty then none
  else
    let r1 := cs.drop ids.length
    let ws := r1.takeWhile isJsWs
    let r2 := r1.drop ws.length
    match r2 with
    | [] => none
    | c1 :: rest2 =>
      if isOpenB c1 then
        let opL : Nat :=
          match rest2 with
          | c2 :: _ => if isOpenB c2 then 2 else 1
          | [] => 1
        let ops := r2.take opL
        let r3 := r2.drop opL
        let lab := r3.takeWhile (fun c => !isCloseB c)
        let r4 := r3.drop lab.length
        match r4 with
        | [] => none
        | _ :: rest4 =>
          let clL : Nat :=
            match rest4 with
            | c3 :: _ => if isCloseB c3 then 2 else 1
            | [] => 1
          let cls := r4.take clL
          some (ids.length + ws.length + opL + lab.length + clL,
            ids ++ ops ++ labelled002 lab ++ cls)
      else none

/-- Case-insensitive prefix test for the part_002 per-line skip regex
`/^(graph|flowchart|sequenceDiagram)/i`. -/
def startsWith3KeywordCI (cs : List Char) : Bool :=
  [("graph").data, ("flowchart").data, ("sequencediagram").data].any
    (fun k => k.isPrefixOf (cs.map Char.toLower))

/-- The per-line stage of the part_002 revision (lines 48-59): trim; pass
empty lines, header lines and `%%` comment lines through; otherwise apply
the node fix. -/
def perLineFix002 (line : List Char) : List Char :=
  if (jsTrim line).isEmpty || startsWith3KeywordCI (jsTrim line) ||
     (("%%").data).isPrefixOf (jsTrim line) then jsTrim line
  else scanRep matchNode002 (jsTrim line)

/-- String-level wrapper for `perLineFix002`. -/
def perLineFix002Str (s : String) : String :=
  ⟨perLineFix002 s.data⟩

/-- Substring test used to state containment properties of sanitizer
outputs. -/
def listInfix (pat : List Char) : List Char → Bool
  | [] => pat.isEmpty
  | c :: rest => pat.isPrefixOf (c :: rest) || listInfix pat rest

/-- String-level substring test. -/
def containsSub (s pat : String) : Bool :=
  listInfix pat.data s.data

/-! ### The retry/backoff wrapper (`src/services/geminiService.ts`)

The wrapped JS error value: `status` and `response.status` are modelled as
`Nat` with `0` standing for an absent (or otherwise falsy) field, mirroring
the truthiness tests of the source. -/

/-- A JS error value as inspected by `withRetry`. -/
structure JsError where
  status : Nat := 0
  hasResponse : Bool := false
  responseStatus : Nat := 0
  msg : String := ""

/-- Outcome of one invocation of the wrapped operation under the
`Promise.race` of the current revision: the operation settles with a value,
settles with an error, or the 20-second timeout fires first. -/
inductive CallOutcome (T : Type) where
  | ok (v : T)
  | err (e : JsError)
  | timeout

/-- The error produced by the 20-second timeout promise
(`new Error("Neural synchronization timeout")`, no status field). -/
def timeoutError : JsError := { msg := "Neural synchronization timeout" }

/-- Line 17: `const status = error.status || (error.response ? error.response.status : null)`,
with `0` standing for null/undefined/0. -/
def classifyStatus (e : JsError) : Nat :=
  if e.status != 0 then e.status
  else if e.hasResponse then e.responseStatus
  else 0

/-- Line 18 of the current revision: `status === 429 || (status && status >= 500)`. -/
def isRetryableMain (s : Nat) : Bool :=
  s == 429 || (s != 0 && decide (500 ≤ s))

/-- Line 161 of the older revision: `error.status === 429 || error.status >= 500`
(an absent status compares false). -/
def isRetryablePlain (e : JsError) : Bool :=
  e.status == 429 || decide (500 ≤ e.status)

/-- Observable behaviour of a `withRetry` call: the settled result (`error
none` models rejecting with the JS value `undefined`), the number of times
the wrapped operation was invoked, and the total backoff sleep in
milliseconds. -/
structure RetryResult (T : Type) where
  result : Except (Option JsError) T
  calls : Nat
  delayMs : Nat

/-- The retry loop of the current revision (geminiService.ts lines 9-25),
parameterised by the outcome of each invocation.  A retryable failure adds
the backoff sleep `2^attempt * 1000` even on the final attempt, exactly as
the source sleeps before re-testing the loop condition. -/
def runMain {T : Type} (op : Nat → CallOutcome T) :
    Nat → Nat → Option JsError → Nat → Nat → RetryResult T
  | _, 0, last, calls, delay => ⟨Except.error last, calls, delay⟩
  | attempt, fuel + 1, _, calls, delay =>
    match op attempt with
    | CallOutcome.ok v => ⟨Except.ok v, calls + 1, delay⟩
    | CallOutcome.timeout =>
      if isRetryableMain (classifyStatus timeoutError) then
        runMain op (attempt + 1) fuel (some timeoutError) (calls + 1)
          (delay + 2 ^ attempt * 1000)
      else ⟨Except.error (some timeoutError), calls + 1, delay⟩
    | CallOutcome.err e =>
      if isRetryableMain (classifyStatus e) then
        runMain op (attempt + 1) fuel (some e) (calls + 1)
          (delay + 2 ^ attempt * 1000)
      else ⟨Except.error (some e), calls + 1, delay⟩

/-- The `withRetry` of the current revision of `src/services/geminiService.ts`
(lines 7-27, default `maxRetries = 2`): zero loop iterations for a
non-positive `maxRetries`, ending in `throw lastError` with `lastError`
still undefined. -/
def withRetry {T : Type} (op : Nat → CallOutcome T) (maxRetries : Int) : RetryResult T :=
  runMain op 0 maxRetries.toNat none 0 0

/-- The retry loop of the older revision (geminiService.ts lines 156-169,
also `src/unnamed/part_007` lines 14-29 and `part_009` lines 8-21). -/
def runPlain {T : Type} (op : Nat → Except JsError T) :
    Nat → Nat → Option JsError → Nat → Nat → RetryResult T
  | _, 0, last, calls, delay => ⟨Except.error last, calls, delay⟩
  | attempt, fuel + 1, _, calls, delay =>
    match op attempt with
    | Except.ok v => ⟨Except.ok v, calls + 1, delay⟩
    | Except.error e =>
      if isRetryablePlain e then
        runPlain op (attempt + 1) fuel (some e) (calls + 1)
          (delay + 2 ^ attempt * 1000)
      else ⟨Except.error (some e), calls + 1, delay⟩

/-- The `withRetry` of the older revision of `src/services/geminiService.ts`
(lines 154-170, default `maxRetries = 3`; identical in
`src/unnamed/part_007` and `part_009`). -/
def withRetryPlain {T : Type} (op : Nat → Except JsError T) (maxRetries : Int) :
    RetryResult T :=
  runPlain op 0 maxRetries.toNat none 0 0

/-! ### Auxiliary lemmas -/

/-- JS `split('\n')` always produces at least one line. -/
theorem splitLines_ne_nil (cs : List Char) : splitLines cs ≠ [] := by
  induction cs with
  | nil => simp [splitLines]
  | cons c rest ih =>
    simp only [splitLines]
    split
    · simp
    · split <;> simp

/-! ### Claims about the sanitizer -/

/-- Claim C1 (code_bug evidence).  `sanitizeMermaid` is not idempotent even
on the already-valid input `flowchart TD\nA --> B`: one application turns
the valid arrow `A --> B` into the broken `A -- --> B` (the unlinked-arrow
regex of Diagram.tsx line 125 matches the `--` of `-->` as an identifier),
and a second application yields yet another string, so sanitizing twice
differs from sanitizing once. -/
theorem c1_sanitize_not_idempotent :
    sanitizeMermaidStr ("flowchart TD\nA --> B") = ("flowchart TD\nA -- --> B")
      ∧ sanitizeMermaidStr (sanitizeMermaidStr ("flowchart TD\nA --> B"))
          = ("flowchart TD\nA  -- --> B")
      ∧ sanitizeMermaidStr (sanitizeMermaidStr ("flowchart TD\nA --> B"))
          ≠ sanitizeMermaidStr ("flowchart TD\nA --> B") := by
  refine ⟨by decide, by decide, by decide⟩

/-- Claim C2 (counterexample).  For the input `A[Hello "World"]` the output
of `sanitizeMermaid` contains no single-quote character at all, so its label
cannot be a quoted string containing `Hello 'World'`: the claimed conversion
of internal double quotes to single quotes does not happen. -/
theorem c2_no_single_quote :
    ((sanitizeMermaidStr ("A[Hello \"World\"]")).data.any (fun c => c == squote))
      = false := by
  decide

/-- Claim C2 (amended).  For the input `A[Hello "World"]`, `sanitizeMermaid`
produces the node definition `A["Hello  World"]`: the internal double quotes
are replaced by spaces, and the label is re-wrapped in double quotes, so no
unescaped quote remains inside the label. -/
theorem c2_label_quotes_to_spaces :
    sanitizeMermaidStr ("A[Hello \"World\"]") = ("flowchart TD\nA[\"Hello  World\"]") := by
  decide

/-- Claim C3 (code_bug evidence).  For the input `A -- --> B`, phase 1
repairs the arrow to `A  -->  B`, but the unlinked-arrow regex of line 125
re-breaks it: the final output is `flowchart TD\nA  -- --> B`, which still
contains the broken `-- -->` sequence and contains no well-formed arrow
`A --> B`. -/
theorem c3_arrow_rebroken :
    sanitizeMermaidStr ("A -- --> B") = ("flowchart TD\nA  -- --> B")
      ∧ containsSub (sanitizeMermaidStr ("A -- --> B")) ("A --> B") = false
      ∧ containsSub (sanitizeMermaidStr ("A -- --> B")) ("-- -->") = true := by
  refine ⟨by decide, by decide, by decide⟩

/-- Claim C4.  For every input whose (normalised) text does not start with a
recognised diagram-type keyword, the first non-empty line of the sanitizer's
line list is exactly the inserted default header `flowchart TD`, which starts
with the recognised keyword `flowchart`. -/
theorem c4_header_insertion (raw : String)
    (h : startsWithKeywordCI ((splitLines (phase1 raw.data)).headD []) = false) :
    (sanitizeLines raw.data).find? (fun l => !l.isEmpty) = some (("flowchart TD").data)
      ∧ startsWithKeywordCI (("flowchart TD").data) = true := by
  refine ⟨?_, by decide⟩
  rcases hs : splitLines (phase1 raw.data) with _ | ⟨l0, tl⟩
  · exact absurd hs (splitLines_ne_nil _)
  · rw [hs] at h
    simp only [List.headD_cons] at h
    unfold sanitizeLines
    rw [hs]
    simp only [headeredLinesV1, h, Bool.false_eq_true, if_false, List.map_cons]
    rw [show perLineFixV1 (("flowchart TD").data) = ("flowchart TD").data from by decide]
    rw [List.find?_cons_of_pos _ (by decide)]

/-- Claim C4 (witness).  The keyword-free input `A --> B` satisfies the
hypothesis of `c4_header_insertion`, and its sanitized line list indeed
starts with the default header. -/
theorem c4_header_insertion_witness :
    startsWithKeywordCI ((splitLines (phase1 ("A --> B").data)).headD []) = false
      ∧ ((sanitizeLines ("A --> B").data).find? (fun l => !l.isEmpty)
            = some (("flowchart TD").data)
          ∧ startsWithKeywordCI (("flowchart TD").data) = true) :=
  ⟨by decide, c4_header_insertion ("A --> B") (by decide)⟩

/-- Claim C7.  The embedded `sanitizeMermaid` is a total function of its
input: for every input string it produces an output string (there is no
exception path and no state other than the argument in the embedding, which
mirrors the source's use of only non-throwing string and regex
operations). -/
theorem c7_total_function : ∀ s : String, ∃ t : String, sanitizeMermaidStr s = t :=
  fun s => ⟨sanitizeMermaidStr s, rfl⟩

/-- Claim C8 (counterexample).  The comment line `  %% note` is not passed
through untouched: the per-line stage returns it trimmed, so the
corresponding output line `%% note` differs from the input line. -/
theorem c8_comment_trimmed :
    sanitizeMermaidStr ("flowchart TD\n  %% note") = ("flowchart TD\n%% note")
      ∧ ("  %% note" : String) ≠ ("%% note" : String) := by
  refine ⟨by decide, by decide⟩

/-- Claim C8 (amended).  Every line whose trimmed form starts with `%%` is
exempt from the per-line fixes: the per-line stage returns exactly the
trimmed line, applying none of the node, arrow or edge-label rewrites. -/
theorem c8_comment_perline (line : List Char)
    (h : (("%%").data).isPrefixOf (jsTrim line) = true) :
    perLineFixV1 line = jsTrim line := by
  simp [perLineFixV1, h]

/-- Claim C8 (witness).  The comment line `  %% x` satisfies the hypothesis
of `c8_comment_perline` and is returned trimmed by the per-line stage. -/
theorem c8_comment_perline_witness :
    (("%%").data).isPrefixOf (jsTrim (("  %% x").data)) = true
      ∧ perLineFixV1 (("  %% x").data) = jsTrim (("  %% x").data) :=
  ⟨by decide, c8_comment_perline (("  %% x").data) (by decide)⟩

/-- Claim C9 (counterexample).  The sanitizer does not leave a line with an
empty shape-delimiter pair unchanged: the input line `A[]` is rewritten. -/
theorem c9_empty_pair_rewritten :
    sanitizeMermaidStr ("flowchart TD\nA[]") ≠ ("flowchart TD\nA[]") := by
  decide

/-- Claim C9 (amended).  For the labelless pair `A[]`, the current revision
(Diagram.tsx lines 108-122) rewrites the line to `A[""]` — an explicit empty
quoted label, with no invented label text — while the part_002 revision's
per-line node pass (part_002 lines 48-59) leaves the line `A[]` unchanged as
the spec sentence describes. -/
theorem c9_empty_label_behavior :
    sanitizeMermaidStr ("flowchart TD\nA[]") = ("flowchart TD\nA[\"\"]")
      ∧ perLineFix002Str ("A[]") = ("A[]") := by
  refine ⟨by decide, by decide⟩

/-! ### Claims about the retry wrapper -/

/-- Claim C5 (counterexample).  An operation that always rejects with status
600 — a status that is neither 429 nor in the 5xx range 500-599 — is
nevertheless retried by `withRetry` (line 18 tests `status >= 500`): with
`maxRetries = 2` the operation is invoked twice with 3000 ms of backoff
sleep, not invoked exactly once with none. -/
theorem c5_status600_retried :
    withRetry (T := Nat) (fun _ => CallOutcome.err { status := 600 }) 2
        = ⟨Except.error (some { status := 600 }), 2, 3000⟩
      ∧ ¬(600 = 429 ∨ (500 ≤ 600 ∧ 600 ≤ 599)) :=
  ⟨rfl, by decide⟩

/-- Claim C5 (amended).  `withRetry` retries exactly when the classified
status is 429 or at least 500; for every operation whose invocation rejects
with an error whose classified status is neither of these (e.g. 400), it
invokes the operation exactly once and rejects with that same error, with
zero backoff delay. -/
theorem c5_short_circuit {T : Type} (op : Nat → CallOutcome T) (e : JsError) (m : Int)
    (h1 : 1 ≤ m) (h2 : op 0 = CallOutcome.err e)
    (h3 : isRetryableMain (classifyStatus e) = false) :
    withRetry op m = ⟨Except.error (some e), 1, 0⟩ := by
  unfold withRetry
  obtain ⟨k, hk⟩ : ∃ k, m.toNat = k + 1 := ⟨m.toNat - 1, by omega⟩
  rw [hk]
  simp [runMain, h2, h3]

/-- Claim C5 (witness).  A 400-status rejection on the first invocation is
terminal: one call, the same error, no delay. -/
theorem c5_short_circuit_witness :
    (1 : Int) ≤ 2
      ∧ withRetry (T := Nat) (fun _ => CallOutcome.err { status := 400 }) 2
          = ⟨Except.error (some { status := 400 }), 1, 0⟩ :=
  ⟨by decide, c5_short_circuit _ _ 2 (by decide) rfl (by decide)⟩

/-- Claim C6.  For an operation that always rejects with an error of status
429, `withRetry(op, 3)` (older revision, geminiService.ts lines 154-170)
invokes the operation exactly 3 times, sleeps 1000+2000+4000 ms of backoff,
and finally rejects with that same last-seen error unchanged. -/
theorem c6_retry_exhaustion {T : Type} (e : JsError) (h : e.status = 429) :
    withRetryPlain (fun _ => (Except.error e : Except JsError T)) 3
      = ⟨Except.error (some e), 3, 7000⟩ := by
  obtain ⟨st, hr, rs, msg⟩ := e
  have h' : st = 429 := h
  subst h'
  rfl

/-- Claim C6 (witness).  Concrete instance with a bare 429 error. -/
theorem c6_retry_exhaustion_witness :
    ({ status := 429 } : JsError).status = 429
      ∧ withRetryPlain (fun _ => (Except.error { status := 429 } : Except JsError Nat)) 3
          = ⟨Except.error (some { status := 429 }), 3, 7000⟩ :=
  ⟨rfl, c6_retry_exhaustion _ rfl⟩

/-- Claim C10.  When `withRetry` (older revision) is called with a
non-positive `maxRetries`, the loop body never runs: the operation is never
invoked (0 calls), there is no delay, and the call rejects with the
uninitialised `lastError`, i.e. the JS value `undefined` (modelled as
`Except.error none`). -/
theorem c10_nonpositive_retries {T : Type} (op : Nat → Except JsError T) (m : Int)
    (h : m ≤ 0) : withRetryPlain op m = ⟨Except.error none, 0, 0⟩ := by
  unfold withRetryPlain
  have hm : m.toNat = 0 := by omega
  rw [hm]
  rfl

/-- Claim C10 (witness).  With `maxRetries = 0` an always-succeeding
operation is still never invoked and the result is the undefined
rejection. -/
theorem c10_nonpositive_retries_witness :
    (0 : Int) ≤ 0
      ∧ withRetryPlain (fun _ => (Except.ok 7 : Except JsError Nat)) 0
          = ⟨Except.error none, 0, 0⟩ :=
  ⟨by decide, c10_nonpositive_retries (fun _ => Except.ok 7) 0 (by decide)⟩
